import Mathlib

/-!
Verification development for the provisioning orchestration engine of the
management-system repository (src/OS_install/provision.py).

The Python source is shallowly embedded: every external effect (terraform
subprocess, ssh probe, ansible playbook, directory reset) is resolved by an
oracle environment describing the outcome of each invocation, and each
embedded function returns the event trace of the invocations it performed
together with its result.  Exceptions are modelled with Except / Option
values following exactly the try and except structure of the source.
-/

namespace MS

/-- Error taxonomy of the embedded Python code: ShellError is raised by
run_cmd on a nonzero exit code, RuntimeError by explicit raise statements,
UnboundLocalError by reading a never-assigned local variable, and OSError
by filesystem primitives such as mkdir. -/
inductive PErr where
  | shellError (msg : String)
  | runtimeError (msg : String)
  | unboundLocalError (varName : String)
  | osError (msg : String)
deriving Repr, DecidableEq

/-- Events emitted by the embedded terraform_apply, one per subprocess
invocation (attempt indices are 0-based, as in the Python for loop). -/
inductive TfEvent where
  | init
  | validate
  | plan (k : Nat)
  | apply (k : Nat)
  | destroy (k : Nat)
  | sleep (secs : Nat)
  | outputFetch
deriving Repr, DecidableEq

/-- Oracle for one invocation of terraform_apply: the outcome of every
subprocess the function may run.  planOk / applyOk / destroyOk are indexed
by the 0-based attempt number; outputs models the JSON printed by
terraform output -json as an association from output name to its value
field. -/
structure TfEnv where
  initOk : Bool
  validateOk : Bool
  planOk : Nat → Bool
  applyOk : Nat → Bool
  destroyOk : Nat → Bool
  outputOk : Bool
  outputs : List (String × Option String)

/-- Attempt k succeeds when both terraform plan and terraform apply exit
with code 0 (provision.py lines 471-475). -/
def attemptOk (env : TfEnv) (k : Nat) : Bool :=
  env.planOk k && env.applyOk k

/-- Subprocess events of attempt k up to the point of failure or success:
terraform apply only runs when terraform plan succeeded. -/
def attemptEvents (env : TfEnv) (k : Nat) : List TfEvent :=
  if env.planOk k then [.plan k, .apply k] else [.plan k]

/-- The retry loop of terraform_apply (provision.py lines 469-523).  The
first argument is the 0-based attempt index, the second the number of
remaining iterations of the for loop.  On a failed attempt with
iterations remaining the code runs a best-effort terraform destroy (its
failure is swallowed, so destroyOk does not influence control flow) and
sleeps 15 * (attempt + 1) seconds; on the last failed attempt it re-raises.
On success it fetches outputs, returning the empty map if that fetch
fails. -/
def tfLoop (env : TfEnv) : Nat → Nat → List TfEvent × Except PErr (List (String × Option String))
  | _, 0 => ([], .ok [])
  | k, r + 1 =>
    if attemptOk env k then
      (attemptEvents env k ++ [.outputFetch],
       .ok (if env.outputOk then env.outputs else []))
    else if r = 0 then
      (attemptEvents env k, .error (.shellError "terraform apply failed"))
    else
      let rest := tfLoop env (k + 1) r
      (attemptEvents env k ++ [.destroy k, .sleep (15 * (k + 1))] ++ rest.1, rest.2)

/-- terraform_apply (provision.py lines 445-523): terraform init and
terraform validate run exactly once before the retry loop; a failure of
either is raised immediately and is never retried. -/
def terraform_apply (env : TfEnv) (maxRetries : Nat) :
    List TfEvent × Except PErr (List (String × Option String)) :=
  if env.initOk then
    if env.validateOk then
      let rest := tfLoop env 0 maxRetries
      (TfEvent.init :: TfEvent.validate :: rest.1, rest.2)
    else
      ([.init, .validate], .error (.shellError "terraform validate failed"))
  else
    ([.init], .error (.shellError "terraform init failed"))

/-- Recognizer for init events. -/
def isInit : TfEvent → Bool
  | .init => true
  | _ => false

/-- Recognizer for validate events. -/
def isValidate : TfEvent → Bool
  | .validate => true
  | _ => false

/-- Recognizer for plan events; one plan event is emitted per loop
attempt, so counting them counts the attempts. -/
def isPlan : TfEvent → Bool
  | .plan _ => true
  | _ => false

/-- Recognizer for destroy events. -/
def isDestroy : TfEvent → Bool
  | .destroy _ => true
  | _ => false

/-- Durations of the sleep events of a trace, in order. -/
def sleepSecs : List TfEvent → List Nat
  | [] => []
  | .sleep s :: rest => s :: sleepSecs rest
  | _ :: rest => sleepSecs rest

/-- The trace produced by j consecutive failed attempts starting at
attempt index k, each followed by the best-effort destroy and the linear
backoff sleep. -/
def failSeg (env : TfEnv) : Nat → Nat → List TfEvent
  | _, 0 => []
  | k, j + 1 =>
    attemptEvents env k ++ [.destroy k, .sleep (15 * (k + 1))] ++ failSeg env (k + 1) j

-- Basic facts about attemptEvents.

lemma countP_isPlan_attemptEvents (env : TfEnv) (k : Nat) :
    (attemptEvents env k).countP isPlan = 1 := by
  unfold attemptEvents
  split <;> simp [List.countP_cons, isPlan]

lemma countP_isDestroy_attemptEvents (env : TfEnv) (k : Nat) :
    (attemptEvents env k).countP isDestroy = 0 := by
  unfold attemptEvents
  split <;> simp [List.countP_cons, isDestroy]

lemma sleepSecs_append (l₁ l₂ : List TfEvent) :
    sleepSecs (l₁ ++ l₂) = sleepSecs l₁ ++ sleepSecs l₂ := by
  induction l₁ with
  | nil => rfl
  | cons e rest ih => cases e <;> simp [sleepSecs, ih]

lemma sleepSecs_attemptEvents (env : TfEnv) (k : Nat) :
    sleepSecs (attemptEvents env k) = [] := by
  unfold attemptEvents
  split <;> simp [sleepSecs]

lemma mem_attemptEvents_shape (env : TfEnv) (k : Nat) (e : TfEvent)
    (he : e ∈ attemptEvents env k) : e = .plan k ∨ e = .apply k := by
  unfold attemptEvents at he
  split at he <;> simp_all

-- Step lemmas for tfLoop.

lemma tfLoop_success (env : TfEnv) (k r : Nat) (hk : attemptOk env k = true)
    (hr : 1 ≤ r) :
    tfLoop env k r =
      (attemptEvents env k ++ [.outputFetch],
       .ok (if env.outputOk then env.outputs else [])) := by
  obtain ⟨r', rfl⟩ : ∃ r', r = r' + 1 := ⟨r - 1, by omega⟩
  simp [tfLoop, hk]

lemma tfLoop_lastFail (env : TfEnv) (k : Nat) (hk : attemptOk env k = false) :
    tfLoop env k 1 = (attemptEvents env k, .error (.shellError "terraform apply failed")) := by
  simp [tfLoop, hk]

lemma tfLoop_retry (env : TfEnv) (k r : Nat) (hk : attemptOk env k = false)
    (hr : r ≠ 0) :
    tfLoop env k (r + 1) =
      (attemptEvents env k ++ [.destroy k, .sleep (15 * (k + 1))] ++ (tfLoop env (k + 1) r).1,
       (tfLoop env (k + 1) r).2) := by
  simp [tfLoop, hk, hr]

/-- Decomposition: if the first j attempts starting at k all fail and at
least one iteration remains afterwards, the loop trace is the failure
segment for those j attempts followed by the loop restarted at attempt
k + j. -/
lemma tfLoop_decompose (env : TfEnv) :
    ∀ j s k, (∀ i, i < j → attemptOk env (k + i) = false) →
      tfLoop env k (j + s + 1) =
        (failSeg env k j ++ (tfLoop env (k + j) (s + 1)).1,
         (tfLoop env (k + j) (s + 1)).2) := by
  intro j
  induction j with
  | zero => intro s k _; simp [failSeg]
  | succ j ih =>
    intro s k hf
    have hk0 : attemptOk env k = false := by simpa using hf 0 (by omega)
    have hstep := tfLoop_retry env k (j + s + 1) hk0 (by omega)
    have harith : j + 1 + s + 1 = (j + s + 1) + 1 := by omega
    rw [harith, hstep]
    have hf' : ∀ i, i < j → attemptOk env (k + 1 + i) = false := by
      intro i hi
      have := hf (i + 1) (by omega)
      simpa [Nat.add_assoc, Nat.add_comm 1 i] using this
    rw [ih s (k + 1) hf']
    have harith2 : k + 1 + j = k + (j + 1) := by omega
    simp [failSeg, harith2, List.append_assoc]

-- Counting facts about failSeg.

lemma countP_isPlan_failSeg (env : TfEnv) :
    ∀ j k, (failSeg env k j).countP isPlan = j := by
  intro j
  induction j with
  | zero => intro k; simp [failSeg]
  | succ j ih =>
    intro k
    simp [failSeg, List.countP_append, countP_isPlan_attemptEvents,
      List.countP_cons, isPlan, ih]
    omega

lemma countP_isDestroy_failSeg (env : TfEnv) :
    ∀ j k, (failSeg env k j).countP isDestroy = j := by
  intro j
  induction j with
  | zero => intro k; simp [failSeg]
  | succ j ih =>
    intro k
    simp [failSeg, List.countP_append, countP_isDestroy_attemptEvents,
      List.countP_cons, isDestroy, ih]

lemma sleepSecs_failSeg (env : TfEnv) :
    ∀ j k, sleepSecs (failSeg env k j) = (List.range j).map (fun i => 15 * (k + i + 1)) := by
  intro j
  induction j with
  | zero => intro k; simp [failSeg, sleepSecs]
  | succ j ih =>
    intro k
    rw [List.range_succ_eq_map]
    simp only [failSeg, sleepSecs_append, sleepSecs_attemptEvents, List.map_cons,
      List.map_map]
    rw [ih (k + 1)]
    simp only [sleepSecs, List.nil_append, List.singleton_append, Nat.add_zero]
    congr 1
    apply List.map_congr_left
    intro i _
    simp [Function.comp]
    omega

lemma destroy_mem_failSeg (env : TfEnv) :
    ∀ j k i, i < j → TfEvent.destroy (k + i) ∈ failSeg env k j := by
  intro j
  induction j with
  | zero => intro k i hi; omega
  | succ j ih =>
    intro k i hi
    cases i with
    | zero => simp [failSeg]
    | succ i' =>
      have := ih (k + 1) i' (by omega)
      have harith : k + 1 + i' = k + (i' + 1) := by omega
      rw [harith] at this
      simp [failSeg]
      tauto

-- The loop trace contains no init or validate events, and at most r plan
-- events.

lemma tfLoop_no_preflight (env : TfEnv) :
    ∀ r k e, e ∈ (tfLoop env k r).1 → isInit e = false ∧ isValidate e = false := by
  intro r
  induction r with
  | zero => intro k e he; simp [tfLoop] at he
  | succ r ih =>
    intro k e he
    by_cases hk : attemptOk env k = true
    · rw [tfLoop_success env k (r + 1) hk (by omega)] at he
      simp at he
      rcases he with he | he
      · rcases mem_attemptEvents_shape env k e he with rfl | rfl <;> simp [isInit, isValidate]
      · subst he; simp [isInit, isValidate]
    · replace hk : attemptOk env k = false := by simpa using hk
      rcases Nat.eq_zero_or_pos r with rfl | hr
      · rw [tfLoop_lastFail env k hk] at he
        rcases mem_attemptEvents_shape env k e he with rfl | rfl <;> simp [isInit, isValidate]
      · rw [tfLoop_retry env k r hk (by omega)] at he
        simp at he
        rcases he with he | he | he | he
        · rcases mem_attemptEvents_shape env k e he with rfl | rfl <;> simp [isInit, isValidate]
        · subst he; simp [isInit, isValidate]
        · subst he; simp [isInit, isValidate]
        · exact ih k.succ e he

lemma tfLoop_plan_le (env : TfEnv) :
    ∀ r k, (tfLoop env k r).1.countP isPlan ≤ r := by
  intro r
  induction r with
  | zero => intro k; simp [tfLoop]
  | succ r ih =>
    intro k
    by_cases hk : attemptOk env k = true
    · rw [tfLoop_success env k (r + 1) hk (by omega)]
      simp [List.countP_append, countP_isPlan_attemptEvents, List.countP_cons, isPlan]
    · replace hk : attemptOk env k = false := by simpa using hk
      rcases Nat.eq_zero_or_pos r with rfl | hr
      · rw [tfLoop_lastFail env k hk]
        simp [countP_isPlan_attemptEvents]
      · rw [tfLoop_retry env k r hk (by omega)]
        have := ih (k + 1)
        simp [List.countP_append, countP_isPlan_attemptEvents, List.countP_cons, isPlan]
        omega

lemma terraform_apply_unfold (env : TfEnv) (N : Nat)
    (hi : env.initOk = true) (hv : env.validateOk = true) :
    terraform_apply env N =
      (TfEvent.init :: TfEvent.validate :: (tfLoop env 0 N).1, (tfLoop env 0 N).2) := by
  simp [terraform_apply, hi, hv]

lemma tfLoop_countP_isInit_zero (env : TfEnv) (N k : Nat) :
    (tfLoop env k N).1.countP isInit = 0 := by
  refine List.countP_eq_zero.mpr (fun e he => ?_)
  simp [(tfLoop_no_preflight env N k e he).1]

lemma tfLoop_countP_isValidate_zero (env : TfEnv) (N k : Nat) :
    (tfLoop env k N).1.countP isValidate = 0 := by
  refine List.countP_eq_zero.mpr (fun e he => ?_)
  simp [(tfLoop_no_preflight env N k e he).2]

/-- Claim C1: in terraform_apply with retry bound N at least one, when the
non-retried init and validate preflight passes, init and validate each run
exactly once; the number of plan and apply attempts is at most N; when
every attempt fails, destroy runs exactly attempts minus one times and the
final failure is re-raised; when the first attempt succeeds, destroy never
runs; and the first successful attempt terminates the loop with a success
result after exactly that many attempts. -/
theorem C1_apply_engine_retry_discipline (env : TfEnv) (N : Nat)
    (hN : 1 ≤ N) (hi : env.initOk = true) (hv : env.validateOk = true) :
    (terraform_apply env N).1.countP isInit = 1 ∧
    (terraform_apply env N).1.countP isValidate = 1 ∧
    (terraform_apply env N).1.countP isPlan ≤ N ∧
    ((∀ i, i < N → attemptOk env i = false) →
      (terraform_apply env N).1.countP isPlan = N ∧
      (terraform_apply env N).1.countP isDestroy = (terraform_apply env N).1.countP isPlan - 1 ∧
      (terraform_apply env N).2 = .error (.shellError "terraform apply failed")) ∧
    (attemptOk env 0 = true → (terraform_apply env N).1.countP isDestroy = 0) ∧
    (∀ j, j < N → (∀ i, i < j → attemptOk env i = false) → attemptOk env j = true →
      (terraform_apply env N).1.countP isPlan = j + 1 ∧
      ∃ outs, (terraform_apply env N).2 = Except.ok outs) := by
  rw [terraform_apply_unfold env N hi hv]
  refine ⟨?_, ?_, ?_, ?_, ?_, ?_⟩
  · simp [List.countP_cons, isInit, isValidate, tfLoop_countP_isInit_zero]
  · simp [List.countP_cons, isInit, isValidate, tfLoop_countP_isValidate_zero]
  · have := tfLoop_plan_le env N 0
    simp [List.countP_cons, isPlan]
    omega
  · intro hall
    obtain ⟨M, rfl⟩ : ∃ M, N = M + 1 := ⟨N - 1, by omega⟩
    have hdec := tfLoop_decompose env M 0 0 (fun i hi' => by simpa using hall i (by omega))
    simp only [Nat.add_zero, Nat.zero_add] at hdec
    have hlast := tfLoop_lastFail env M (hall M (by omega))
    rw [hdec, hlast]
    simp [List.countP_cons, List.countP_append, isPlan, isDestroy,
      countP_isPlan_failSeg, countP_isDestroy_failSeg,
      countP_isPlan_attemptEvents, countP_isDestroy_attemptEvents]
  · intro h0
    rw [tfLoop_success env 0 N h0 hN]
    simp [List.countP_cons, List.countP_append, isDestroy,
      countP_isDestroy_attemptEvents]
  · intro j hj hbefore hsucc
    obtain ⟨s, rfl⟩ : ∃ s, N = j + s + 1 := ⟨N - j - 1, by omega⟩
    have hdec := tfLoop_decompose env j s 0 (fun i hi' => by simpa using hbefore i hi')
    simp only [Nat.zero_add] at hdec
    have hstep := tfLoop_success env j (s + 1) hsucc (by omega)
    rw [hdec, hstep]
    constructor
    · simp [List.countP_cons, List.countP_append, isPlan,
        countP_isPlan_failSeg, countP_isPlan_attemptEvents]
    · exact ⟨_, rfl⟩

/-- Concrete oracle for witnesses: preflight passes, terraform plan always
succeeds and terraform apply always fails. -/
def tfEnvAllFail : TfEnv :=
  { initOk := true, validateOk := true, planOk := fun _ => true,
    applyOk := fun _ => false, destroyOk := fun _ => true,
    outputOk := true, outputs := [] }

theorem C1_apply_engine_retry_discipline_witness :
    (1 ≤ 2 ∧ tfEnvAllFail.initOk = true ∧ tfEnvAllFail.validateOk = true) ∧
    ((terraform_apply tfEnvAllFail 2).1.countP isInit = 1 ∧
     (terraform_apply tfEnvAllFail 2).1.countP isValidate = 1 ∧
     (terraform_apply tfEnvAllFail 2).1.countP isPlan ≤ 2 ∧
     ((∀ i, i < 2 → attemptOk tfEnvAllFail i = false) →
       (terraform_apply tfEnvAllFail 2).1.countP isPlan = 2 ∧
       (terraform_apply tfEnvAllFail 2).1.countP isDestroy =
         (terraform_apply tfEnvAllFail 2).1.countP isPlan - 1 ∧
       (terraform_apply tfEnvAllFail 2).2 = .error (.shellError "terraform apply failed")) ∧
     (attemptOk tfEnvAllFail 0 = true →
       (terraform_apply tfEnvAllFail 2).1.countP isDestroy = 0) ∧
     (∀ j, j < 2 → (∀ i, i < j → attemptOk tfEnvAllFail i = false) →
       attemptOk tfEnvAllFail j = true →
       (terraform_apply tfEnvAllFail 2).1.countP isPlan = j + 1 ∧
       ∃ outs, (terraform_apply tfEnvAllFail 2).2 = Except.ok outs)) :=
  ⟨⟨by decide, rfl, rfl⟩,
   C1_apply_engine_retry_discipline tfEnvAllFail 2 (by decide) rfl rfl⟩

/-- Claim C2: when the first k attempts (1-based count k) all fail and
attempts remain (k < N), the engine sleeps exactly 15 * k seconds between
attempt k and attempt k + 1: the k-th sleep event of the trace has
duration 15 * k, and the best-effort destroy of that failed attempt is in
the trace as well. -/
theorem C2_linear_backoff (env : TfEnv) (N k : Nat)
    (hi : env.initOk = true) (hv : env.validateOk = true)
    (hk : 1 ≤ k) (hkN : k < N)
    (hfail : ∀ i, i < k → attemptOk env i = false) :
    (sleepSecs (terraform_apply env N).1)[k - 1]? = some (15 * k) ∧
    TfEvent.destroy (k - 1) ∈ (terraform_apply env N).1 := by
  rw [terraform_apply_unfold env N hi hv]
  obtain ⟨s, rfl⟩ : ∃ s, N = k + s + 1 := ⟨N - k - 1, by omega⟩
  have hdec := tfLoop_decompose env k s 0 (fun i hi' => by simpa using hfail i hi')
  simp only [Nat.zero_add] at hdec
  rw [hdec]
  constructor
  · simp only [sleepSecs, sleepSecs_append, sleepSecs_failSeg]
    rw [List.getElem?_append_left (by simpa using hk)]
    rw [List.getElem?_map, List.getElem?_range (by omega)]
    simp
    omega
  · have hmem := destroy_mem_failSeg env k 0 (k - 1) (by omega)
    simp only [Nat.zero_add] at hmem
    simp only [List.mem_cons, List.mem_append]
    tauto

theorem C2_linear_backoff_witness :
    (tfEnvAllFail.initOk = true ∧ tfEnvAllFail.validateOk = true ∧ 1 ≤ 1 ∧ 1 < 2 ∧
      (∀ i, i < 1 → attemptOk tfEnvAllFail i = false)) ∧
    ((sleepSecs (terraform_apply tfEnvAllFail 2).1)[1 - 1]? = some (15 * 1) ∧
      TfEvent.destroy (1 - 1) ∈ (terraform_apply tfEnvAllFail 2).1) :=
  ⟨⟨rfl, rfl, by decide, by decide, by decide⟩,
   C2_linear_backoff tfEnvAllFail 2 1 rfl rfl (by decide) (by decide) (by decide)⟩

/-- Claim C6: within a successful attempt (the first j attempts failed and
attempt j succeeds), when the structured output fetch of terraform output
-json fails, terraform_apply still returns success, with the empty output
map. -/
theorem C6_output_fetch_best_effort (env : TfEnv) (N j : Nat)
    (hi : env.initOk = true) (hv : env.validateOk = true)
    (hj : j < N) (hfail : ∀ i, i < j → attemptOk env i = false)
    (hsucc : attemptOk env j = true) (hout : env.outputOk = false) :
    (terraform_apply env N).2 = Except.ok [] := by
  rw [terraform_apply_unfold env N hi hv]
  obtain ⟨s, rfl⟩ : ∃ s, N = j + s + 1 := ⟨N - j - 1, by omega⟩
  have hdec := tfLoop_decompose env j s 0 (fun i hi' => by simpa using hfail i hi')
  simp only [Nat.zero_add] at hdec
  rw [hdec, tfLoop_success env j (s + 1) hsucc (by omega)]
  simp [hout]

/-- Concrete oracle for the C6 witness: the first apply succeeds but the
output fetch fails. -/
def tfEnvNoOutputs : TfEnv :=
  { initOk := true, validateOk := true, planOk := fun _ => true,
    applyOk := fun _ => true, destroyOk := fun _ => true,
    outputOk := false, outputs := [("vm_ip", some "10.0.0.5")] }

theorem C6_output_fetch_best_effort_witness :
    (tfEnvNoOutputs.initOk = true ∧ tfEnvNoOutputs.validateOk = true ∧ 0 < 2 ∧
      (∀ i, i < 0 → attemptOk tfEnvNoOutputs i = false) ∧
      attemptOk tfEnvNoOutputs 0 = true ∧ tfEnvNoOutputs.outputOk = false) ∧
    (terraform_apply tfEnvNoOutputs 2).2 = Except.ok [] :=
  ⟨⟨rfl, rfl, by decide, by decide, rfl, rfl⟩,
   C6_output_fetch_best_effort tfEnvNoOutputs 2 0 rfl rfl (by decide) (by decide) rfl rfl⟩

-- ------------------------------------------------------------------
-- Data model (provision.py lines 41-99, Pydantic models), restricted to
-- the fields the orchestration reads or writes.
-- ------------------------------------------------------------------

/-- Boot method of a host (provision.py line 41). -/
inductive BootMethod where
  | iso
  | image
  | pxe
deriving Repr, DecidableEq

/-- Supported OS kinds (provision.py line 42). -/
inductive OSType where
  | ubuntu
  | nixos
deriving Repr, DecidableEq

/-- Placement kind (provision.py line 43). -/
inductive Hypervisor where
  | proxmox
  | baremetal
deriving Repr, DecidableEq

/-- UserSpec (provision.py lines 72-76). -/
structure UserSpec where
  username : String
  ssh_authorized_keys : List String := []
  «sudo» : Bool := true
  shell : String := "/bin/bash"
deriving Repr, DecidableEq

/-- NetworkConfig (provision.py lines 57-64). -/
structure NetworkConfig where
  hostname : String
  domain : Option String := none
  dhcp : Bool := true
  address_cidr : Option String := none
  gateway : Option String := none
  dns : List String := []
deriving Repr, DecidableEq

/-- OSInstallConfig (provision.py lines 78-87). -/
structure OSInstallConfig where
  os : OSType
  version : String
  packages : List String := []
  users : List UserSpec
  network : NetworkConfig
  docker : Bool := false
  nix_services : List String := []
deriving Repr, DecidableEq

/-- VMSpec (provision.py lines 89-99). -/
structure VMSpec where
  name : String
  tenant : String := "default"
  hypervisor : Hypervisor := .proxmox
  boot_method : BootMethod := .iso
  cpus : Nat := 2
  memory_mb : Nat := 4096
deriving Repr, DecidableEq

/-- The selected pipeline stages (the --targets set). -/
structure StageSet where
  infra : Bool
  pxe : Bool
  os : Bool
  post : Bool
deriving Repr, DecidableEq

-- ------------------------------------------------------------------
-- Readiness prober: check_vm_health (provision.py lines 525-595).
-- ------------------------------------------------------------------

/-- Oracle for the readiness prober, indexed by the 0-based poll number:
sshOk is the exit status of the trivial remote command, cloudInitDone
whether the cloud-init status output contains done or disabled. -/
structure HealthEnv where
  sshOk : Nat → Bool
  cloudInitDone : Nat → Bool

/-- The polling loop of check_vm_health.  Each iteration checks the loop
condition elapsed < timeout, performs the (instantaneous) remote checks,
and sleeps 10 seconds.  NixOS hosts are declared ready on ssh liveness
alone; Ubuntu hosts additionally need cloud-init to report done or
disabled.  The fuel argument is a structural-recursion bound; callers pass
fuel > timeout / 10 so it is never exhausted before the timeout check
returns (at fuel 0 the returned value coincides with the timeout-expiry
return of the source). -/
def healthLoop (env : HealthEnv) (osType : OSType) (timeout : Nat) :
    Nat → Nat → Bool × Nat
  | 0, elapsed => (false, elapsed)
  | fuel + 1, elapsed =>
    if elapsed < timeout then
      let n := elapsed / 10
      if env.sshOk n then
        if osType = .nixos then (true, elapsed)
        else if env.cloudInitDone n then (true, elapsed)
        else healthLoop env osType timeout fuel (elapsed + 10)
      else healthLoop env osType timeout fuel (elapsed + 10)
    else (false, elapsed)

/-- check_vm_health: poll from elapsed time 0; the result is the returned
boolean together with the elapsed time at return. -/
def check_vm_health (env : HealthEnv) (osType : OSType) (timeout : Nat) : Bool × Nat :=
  healthLoop env osType timeout (timeout + 1) 0

-- ------------------------------------------------------------------
-- Renderers and the per-host pipeline: provision_host
-- (provision.py lines 670-773) with render_ansible_inventory
-- (lines 389-441).
-- ------------------------------------------------------------------

/-- Pipeline events of one host, one per external action. -/
inductive PEvent where
  | cleanDir
  | renderTf
  | tfApplyCall
  | bootWait
  | healthCheck (healthy : Bool)
  | renderInventory
  | pxePlay
  | ubuntuPlay
  | nixosAnywhere (ok : Bool)
  | nixosFallback
  | postPlay
deriving Repr, DecidableEq

/-- Oracle for one host pipeline: outcomes of every external action that
provision_host may perform.  nixosAnywhereOk is the boolean returned by
deploy_with_nixos_anywhere (which swallows its own failure); the other
flags are exit statuses of invocations whose failure raises. -/
structure ProvEnv where
  tfEnv : TfEnv
  healthEnv : HealthEnv
  cleanDirOk : Bool
  renderTfOk : Bool
  pxePlayOk : Bool
  ubuntuPlayOk : Bool
  nixosAnywhereOk : Bool
  nixosFallbackOk : Bool
  postPlayOk : Bool
  tenantPubKey : String

/-- tf_outputs.get(key, default-empty-dict).get(value-field): the value
field of a terraform output map entry, or none when the key is absent. -/
def lookupValue (outs : List (String × Option String)) (key : String) : Option String :=
  match outs.lookup key with
  | none => none
  | some v => v

/-- The truthiness test of provision.py line 708: new_ip is usable when it
is present, non-empty (Python truthiness) and not the dhcp-pending
placeholder. -/
def usableIp : Option String → Bool
  | none => false
  | some ip => (ip != "") && (ip != "dhcp-pending")

/-- The static-address extraction of provision.py line 720:
(address_cidr or empty).split on slash, first component, i.e. the prefix
of the string before the first slash. -/
def splitCidr (s : String) : String :=
  String.mk (s.toList.takeWhile (fun c => c != '/'))

/-- render_ansible_inventory, restricted to its effect on the caller-owned
install config (provision.py lines 399-404): every user with an empty
ssh_authorized_keys list gets the tenant public key appended, and an empty
users list is replaced by a default ubuntu user carrying that key. -/
def render_ansible_inventory (pubKey : String) (install : OSInstallConfig) : OSInstallConfig :=
  match install.users with
  | [] =>
    { install with users := [{ username := "ubuntu", ssh_authorized_keys := [pubKey] }] }
  | _ :: _ =>
    { install with users := install.users.map (fun u =>
        if u.ssh_authorized_keys.isEmpty then
          { u with ssh_authorized_keys := u.ssh_authorized_keys ++ [pubKey] }
        else u) }

/-- Outcome of the proxmox branch of provision_host (lines 692-734):
trace, the binding state of the local variable vm_ip_for_tasks (none means
the variable was never assigned, as for bare-metal hosts), the install
config after any DHCP-address write-back, and the captured error if the
branch raised. -/
structure PhaseOut where
  trace : List PEvent
  vmIpVar : Option (Option String)
  install : OSInstallConfig
  err : Option PErr
deriving Repr

/-- The boot-grace wait and readiness probe (provision.py lines 722-734),
performed only when vm_ip_for_tasks is truthy; an unready result is only a
logged warning. -/
def healthPart (env : ProvEnv) (osType : OSType) (ip : String) : List PEvent :=
  if ip != "" then
    [.bootWait, .healthCheck (check_vm_health env.healthEnv osType 300).1]
  else []

/-- The proxmox branch of provision_host (lines 692-734): render the
terraform module, then, when the infra stage is selected, run
terraform_apply with max_retries 2 and resolve the address: for DHCP hosts
from the vm_ip output (failing closed on a missing or placeholder value,
and writing the detected address back into install.network.address_cidr),
for static hosts from address_cidr. -/
def proxmoxPhase (env : ProvEnv) (vm : VMSpec) (install : OSInstallConfig)
    (targets : StageSet) : PhaseOut :=
  if vm.hypervisor = .proxmox then
    if env.renderTfOk then
      if targets.infra then
        match (terraform_apply env.tfEnv 2).2 with
        | .error e => ⟨[.renderTf, .tfApplyCall], some none, install, some e⟩
        | .ok outs =>
          if install.network.dhcp then
            let newIp := lookupValue outs "vm_ip"
            if usableIp newIp then
              let ip := newIp.getD ""
              let install' :=
                { install with network := { install.network with address_cidr := some ip } }
              ⟨[.renderTf, .tfApplyCall] ++ healthPart env install.os ip,
               some (some ip), install', none⟩
            else
              ⟨[.renderTf, .tfApplyCall], some none, install,
               some (.runtimeError "DHCP IP not found in Terraform output. vm_ip was missing or pending.")⟩
          else
            let ip := splitCidr ((install.network.address_cidr).getD "")
            ⟨[.renderTf, .tfApplyCall] ++ healthPart env install.os ip,
             some (some ip), install, none⟩
      else ⟨[.renderTf], some none, install, none⟩
    else ⟨[.renderTf], none, install, some (.runtimeError "render_tf_module failed")⟩
  else ⟨[], none, install, none⟩

/-- The pxe stage (provision.py lines 740-743): only for bare-metal
placement or PXE boot, and only when the pxe stage is selected. -/
def pxePhase (env : ProvEnv) (vm : VMSpec) (targets : StageSet) :
    List PEvent × Option PErr :=
  if vm.hypervisor = .baremetal ∨ vm.boot_method = .pxe then
    if targets.pxe then
      ([.pxePlay],
       if env.pxePlayOk then none else some (.shellError "ansible-playbook pxe_server.yml failed"))
    else ([], none)
  else ([], none)

/-- The os stage (provision.py lines 746-765): Ubuntu runs a single
playbook; NixOS reads vm_ip_for_tasks (raising UnboundLocalError when the
variable was never assigned), attempts nixos-anywhere as primary, and on
its failure falls back to the Ansible playbook, whose own failure is
fatal. -/
def osPhase (env : ProvEnv) (install : OSInstallConfig)
    (vmIpVar : Option (Option String)) (targets : StageSet) :
    List PEvent × Option PErr :=
  if targets.os then
    match install.os with
    | .ubuntu =>
      ([.ubuntuPlay],
       if env.ubuntuPlayOk then none
       else some (.shellError "ansible-playbook ubuntu_install.yml failed"))
    | .nixos =>
      match vmIpVar with
      | none => ([], some (.unboundLocalError "vm_ip_for_tasks"))
      | some _ =>
        if env.nixosAnywhereOk then ([.nixosAnywhere true], none)
        else
          ([.nixosAnywhere false, .nixosFallback],
           if env.nixosFallbackOk then none
           else some (.shellError "ansible-playbook nixos_install.yml failed"))
  else ([], none)

/-- The post stage (provision.py lines 768-769). -/
def postPhase (env : ProvEnv) (targets : StageSet) : List PEvent × Option PErr :=
  if targets.post then
    ([.postPlay],
     if env.postPlayOk then none
     else some (.shellError "ansible-playbook post_config_common.yml failed"))
  else ([], none)

/-- The body of the try block of provision_host (lines 690-773): proxmox
branch, inventory rendering, then the pxe, os and post stages in order;
the first captured exception stops the remaining stages.  The returned
install config is the state of the caller-owned object at exit, mutations
included. -/
def tryBody (env : ProvEnv) (vm : VMSpec) (install : OSInstallConfig)
    (targets : StageSet) : List PEvent × OSInstallConfig × Option PErr :=
  match proxmoxPhase env vm install targets with
  | ⟨tr1, _, inst1, some e⟩ => (tr1, inst1, some e)
  | ⟨tr1, vmIpVar, inst1, none⟩ =>
    let inst2 := render_ansible_inventory env.tenantPubKey inst1
    let tr2 := tr1 ++ [.renderInventory]
    match pxePhase env vm targets with
    | (trp, some e) => (tr2 ++ trp, inst2, some e)
    | (trp, none) =>
      match osPhase env inst2 vmIpVar targets with
      | (tro, some e) => (tr2 ++ trp ++ tro, inst2, some e)
      | (tro, none) =>
        match postPhase env targets with
        | (trq, err) => (tr2 ++ trp ++ tro ++ trq, inst2, err)

/-- provision_host (lines 670-773): the workspace reset
(ensure_clean_dir) runs before the try block, so its failure is raised out
of provision_host instead of being captured; everything afterwards is
captured and returned as the host result pair (name, optional error),
alongside the final state of the caller-owned install config. -/
def provision_host (env : ProvEnv) (vm : VMSpec) (install : OSInstallConfig)
    (targets : StageSet) :
    List PEvent × Except PErr (OSInstallConfig × String × Option PErr) :=
  if env.cleanDirOk then
    let b := tryBody env vm install targets
    (PEvent.cleanDir :: b.1, .ok (b.2.1, vm.name, b.2.2))
  else
    ([PEvent.cleanDir], .error (.osError "ensure_clean_dir failed"))

-- ------------------------------------------------------------------
-- Run level: worker, asyncio.gather and the summary (lines 816-860).
-- ------------------------------------------------------------------

/-- One worker task (provision.py lines 840-847): a missing install config
is recorded as that host result; an exception escaping provision_host
escapes the worker. -/
def workerRun (env : ProvEnv) (vm : VMSpec)
    (installs : List (String × OSInstallConfig)) (targets : StageSet) :
    Except PErr (String × Option PErr) :=
  match installs.lookup vm.name with
  | none => .ok (vm.name, some (.runtimeError "Missing install_config for host"))
  | some install =>
    match (provision_host env vm install targets).2 with
    | .error e => .error e
    | .ok (_, name, err) => .ok (name, err)

/-- asyncio.gather over the workers (line 849): the first escaping
exception propagates out of gather and the collected results are lost. -/
def gatherRun (hosts : List (ProvEnv × VMSpec))
    (installs : List (String × OSInstallConfig)) (targets : StageSet) :
    Except PErr (List (String × Option PErr)) :=
  match hosts with
  | [] => .ok []
  | (env, vm) :: rest =>
    match workerRun env vm installs targets with
    | .error e => .error e
    | .ok r =>
      match gatherRun rest installs targets with
      | .error e => .error e
      | .ok rs => .ok (r :: rs)

/-- The summary exit status (lines 851-860): exit 1 when any host failed,
0 otherwise. -/
def exitCode (rs : List (String × Option PErr)) : Nat :=
  if rs.any (fun r => r.2.isSome) then 1 else 0

/-- The whole run: on an escaping per-host exception main aborts without a
summary (the exception unwinds through asyncio.gather and asyncio.run);
otherwise it prints the summary and exits via exitCode. -/
def mainRun (hosts : List (ProvEnv × VMSpec))
    (installs : List (String × OSInstallConfig)) (targets : StageSet) :
    Except PErr (List (String × Option PErr) × Nat) :=
  match gatherRun hosts installs targets with
  | .error e => .error e
  | .ok rs => .ok (rs, exitCode rs)

-- ------------------------------------------------------------------
-- Helper lemmas about the pipeline pieces.
-- ------------------------------------------------------------------

lemma render_ansible_inventory_fields (k : String) (i : OSInstallConfig) :
    (render_ansible_inventory k i).os = i.os ∧
    (render_ansible_inventory k i).version = i.version ∧
    (render_ansible_inventory k i).packages = i.packages ∧
    (render_ansible_inventory k i).network = i.network ∧
    (render_ansible_inventory k i).docker = i.docker ∧
    (render_ansible_inventory k i).nix_services = i.nix_services := by
  unfold render_ansible_inventory
  cases h : i.users <;> simp [h]

lemma render_ansible_inventory_os (k : String) (i : OSInstallConfig) :
    (render_ansible_inventory k i).os = i.os :=
  (render_ansible_inventory_fields k i).1

/-- With always-failing liveness and enough fuel, the polling loop returns
false only once the deadline has passed, and at the first multiple of the
poll interval at or past the deadline. -/
lemma healthLoop_allFail (env : HealthEnv) (osType : OSType) (timeout : Nat)
    (hssh : ∀ n, env.sshOk n = false) :
    ∀ fuel elapsed, timeout ≤ elapsed + 10 * fuel → elapsed < timeout + 10 →
      (healthLoop env osType timeout fuel elapsed).1 = false ∧
      timeout ≤ (healthLoop env osType timeout fuel elapsed).2 ∧
      (healthLoop env osType timeout fuel elapsed).2 < timeout + 10 := by
  intro fuel
  induction fuel with
  | zero =>
    intro elapsed h1 h2
    have hr : healthLoop env osType timeout 0 elapsed = (false, elapsed) := rfl
    refine ⟨?_, ?_, ?_⟩ <;> rw [hr] <;> simp <;> omega
  | succ fuel ih =>
    intro elapsed h1 h2
    by_cases hel : elapsed < timeout
    · have hs := hssh (elapsed / 10)
      simp only [healthLoop, hel, if_true, hs, Bool.false_eq_true, if_false]
      exact ih (elapsed + 10) (by omega) (by omega)
    · have hr : healthLoop env osType timeout (fuel + 1) elapsed = (false, elapsed) := by
        simp [healthLoop, hel]
      refine ⟨?_, ?_, ?_⟩ <;> rw [hr] <;> simp <;> omega

/-- check_vm_health with always-failing liveness: false, not before the
timeout, and within one poll interval past it. -/
lemma check_vm_health_allFail (env : HealthEnv) (osType : OSType) (timeout : Nat)
    (hssh : ∀ n, env.sshOk n = false) :
    (check_vm_health env osType timeout).1 = false ∧
    timeout ≤ (check_vm_health env osType timeout).2 ∧
    (check_vm_health env osType timeout).2 < timeout + 10 := by
  unfold check_vm_health
  exact healthLoop_allFail env osType timeout hssh (timeout + 1) 0 (by omega) (by omega)

/-- Claim C5: if the liveness check never succeeds, check_vm_health
returns false, no earlier than the timeout and at most one poll interval
past it; the caller treats the unready result as a warning only, so the
configuration-management stages still run and the host still succeeds. -/
theorem C5_readiness_timeout_is_warning (env : ProvEnv) (vm : VMSpec)
    (install : OSInstallConfig) (targets : StageSet)
    (t : Nat) (ost : OSType) (outs : List (String × Option String))
    (hssh : ∀ n, env.healthEnv.sshOk n = false)
    (hhv : vm.hypervisor = .proxmox) (hclean : env.cleanDirOk = true)
    (hrtf : env.renderTfOk = true) (hinfra : targets.infra = true)
    (hdhcp : install.network.dhcp = false)
    (htf : (terraform_apply env.tfEnv 2).2 = .ok outs)
    (hip : splitCidr ((install.network.address_cidr).getD "") ≠ "")
    (hboot : vm.boot_method ≠ .pxe)
    (hos : install.os = .ubuntu) (hosT : targets.os = true)
    (hub : env.ubuntuPlayOk = true)
    (hpost : targets.post = true → env.postPlayOk = true) :
    ((check_vm_health env.healthEnv ost t).1 = false ∧
      t ≤ (check_vm_health env.healthEnv ost t).2 ∧
      (check_vm_health env.healthEnv ost t).2 < t + 10) ∧
    PEvent.healthCheck false ∈ (provision_host env vm install targets).1 ∧
    PEvent.ubuntuPlay ∈ (provision_host env vm install targets).1 ∧
    (∃ inst', (provision_host env vm install targets).2 = .ok (inst', vm.name, none)) := by
  have hfalse300 := check_vm_health_allFail env.healthEnv install.os 300 hssh
  have hhp : healthPart env install.os (splitCidr ((install.network.address_cidr).getD "")) =
      [.bootWait, .healthCheck false] := by
    simp [healthPart, hip, hfalse300.1]
  have hprox : proxmoxPhase env vm install targets =
      ⟨[.renderTf, .tfApplyCall, .bootWait, .healthCheck false],
       some (some (splitCidr ((install.network.address_cidr).getD ""))), install, none⟩ := by
    simp [proxmoxPhase, hhv, hrtf, hinfra, htf, hdhcp, hhp]
  have hgate : ¬(vm.hypervisor = .baremetal ∨ vm.boot_method = .pxe) := by
    rw [hhv]; simpa using hboot
  have hpxe : pxePhase env vm targets = ([], none) := by
    simp [pxePhase, hgate]
  have hosr : osPhase env (render_ansible_inventory env.tenantPubKey install)
      (some (some (splitCidr ((install.network.address_cidr).getD "")))) targets =
      ([.ubuntuPlay], none) := by
    simp [osPhase, hosT, render_ansible_inventory_os, hos, hub]
  by_cases hp : targets.post = true
  · have hpostr : postPhase env targets = ([.postPlay], none) := by
      simp [postPhase, hp, hpost hp]
    have hmain : provision_host env vm install targets =
        ([.cleanDir, .renderTf, .tfApplyCall, .bootWait, .healthCheck false,
          .renderInventory, .ubuntuPlay, .postPlay],
         .ok (render_ansible_inventory env.tenantPubKey install, vm.name, none)) := by
      simp [provision_host, hclean, tryBody, hprox, hpxe, hosr, hpostr]
    exact ⟨check_vm_health_allFail env.healthEnv ost t hssh,
      by simp [hmain], by simp [hmain],
      ⟨render_ansible_inventory env.tenantPubKey install, by simp [hmain]⟩⟩
  · have hpostr : postPhase env targets = ([], none) := by
      simp [postPhase, hp]
    have hmain : provision_host env vm install targets =
        ([.cleanDir, .renderTf, .tfApplyCall, .bootWait, .healthCheck false,
          .renderInventory, .ubuntuPlay],
         .ok (render_ansible_inventory env.tenantPubKey install, vm.name, none)) := by
      simp [provision_host, hclean, tryBody, hprox, hpxe, hosr, hpostr]
    exact ⟨check_vm_health_allFail env.healthEnv ost t hssh,
      by simp [hmain], by simp [hmain],
      ⟨render_ansible_inventory env.tenantPubKey install, by simp [hmain]⟩⟩


-- Concrete values shared by the pipeline witnesses and counterexamples.

/-- Terraform oracle where everything succeeds and the vm_ip output is a
concrete address. -/
def tfEnvOk : TfEnv :=
  { initOk := true, validateOk := true, planOk := fun _ => true,
    applyOk := fun _ => true, destroyOk := fun _ => true,
    outputOk := true, outputs := [("vm_ip", some "10.0.0.5")] }

/-- Liveness oracle where the host never answers. -/
def healthEnvDown : HealthEnv :=
  { sshOk := fun _ => false, cloudInitDone := fun _ => false }

/-- Pipeline oracle: every external action succeeds but the host never
answers the liveness probe. -/
def provEnvHealthDown : ProvEnv :=
  { tfEnv := tfEnvOk, healthEnv := healthEnvDown, cleanDirOk := true,
    renderTfOk := true, pxePlayOk := true, ubuntuPlayOk := true,
    nixosAnywhereOk := true, nixosFallbackOk := true, postPlayOk := true,
    tenantPubKey := "tenant-key" }

/-- A static-address network config. -/
def netStatic : NetworkConfig :=
  { hostname := "h1", dhcp := false, address_cidr := some "10.0.0.8/24" }

/-- An Ubuntu install config with a static address. -/
def installUbuntuStatic : OSInstallConfig :=
  { os := .ubuntu, version := "24.04", users := [{ username := "dev", ssh_authorized_keys := ["k1"] }],
    network := netStatic }

/-- A proxmox-hosted VM with default boot method iso. -/
def vmProx : VMSpec := { name := "h1" }

/-- All four pipeline stages selected. -/
def allStages : StageSet := { infra := true, pxe := true, os := true, post := true }

theorem C5_readiness_timeout_is_warning_witness :
    ((∀ n, provEnvHealthDown.healthEnv.sshOk n = false) ∧
     vmProx.hypervisor = .proxmox ∧ provEnvHealthDown.cleanDirOk = true ∧
     provEnvHealthDown.renderTfOk = true ∧ allStages.infra = true ∧
     installUbuntuStatic.network.dhcp = false ∧
     (terraform_apply provEnvHealthDown.tfEnv 2).2 = .ok [("vm_ip", some "10.0.0.5")] ∧
     splitCidr ((installUbuntuStatic.network.address_cidr).getD "") ≠ "" ∧
     vmProx.boot_method ≠ .pxe ∧ installUbuntuStatic.os = .ubuntu ∧
     allStages.os = true ∧ provEnvHealthDown.ubuntuPlayOk = true ∧
     (allStages.post = true → provEnvHealthDown.postPlayOk = true)) ∧
    (((check_vm_health provEnvHealthDown.healthEnv .nixos 25).1 = false ∧
       25 ≤ (check_vm_health provEnvHealthDown.healthEnv .nixos 25).2 ∧
       (check_vm_health provEnvHealthDown.healthEnv .nixos 25).2 < 25 + 10) ∧
     PEvent.healthCheck false ∈
       (provision_host provEnvHealthDown vmProx installUbuntuStatic allStages).1 ∧
     PEvent.ubuntuPlay ∈
       (provision_host provEnvHealthDown vmProx installUbuntuStatic allStages).1 ∧
     (∃ inst', (provision_host provEnvHealthDown vmProx installUbuntuStatic allStages).2 =
        .ok (inst', vmProx.name, none))) :=
  ⟨⟨fun _ => rfl, rfl, rfl, rfl, rfl, rfl, rfl, by decide, by decide, rfl, rfl, rfl,
    fun _ => rfl⟩,
   C5_readiness_timeout_is_warning provEnvHealthDown vmProx installUbuntuStatic allStages 25
     .nixos [("vm_ip", some "10.0.0.5")] (fun _ => rfl) rfl rfl rfl rfl rfl rfl (by decide)
     (by decide) rfl rfl rfl (fun _ => rfl)⟩

/-- Claim C3: a DHCP host whose apply outputs carry no usable address (the
vm_ip key missing or holding the dhcp-pending placeholder) fails closed
with the address-resolution RuntimeError, and neither the readiness probe
nor any configuration-management stage runs. -/
theorem C3_dhcp_fail_closed (env : ProvEnv) (vm : VMSpec) (install : OSInstallConfig)
    (targets : StageSet) (outs : List (String × Option String))
    (hhv : vm.hypervisor = .proxmox) (hclean : env.cleanDirOk = true)
    (hrtf : env.renderTfOk = true) (hinfra : targets.infra = true)
    (hdhcp : install.network.dhcp = true)
    (htf : (terraform_apply env.tfEnv 2).2 = .ok outs)
    (hip : lookupValue outs "vm_ip" = none ∨ lookupValue outs "vm_ip" = some "dhcp-pending") :
    provision_host env vm install targets =
      ([.cleanDir, .renderTf, .tfApplyCall],
       .ok (install, vm.name,
         some (.runtimeError "DHCP IP not found in Terraform output. vm_ip was missing or pending."))) ∧
    (∀ b, PEvent.healthCheck b ∉ (provision_host env vm install targets).1) ∧
    PEvent.pxePlay ∉ (provision_host env vm install targets).1 ∧
    PEvent.ubuntuPlay ∉ (provision_host env vm install targets).1 ∧
    (∀ b, PEvent.nixosAnywhere b ∉ (provision_host env vm install targets).1) ∧
    PEvent.nixosFallback ∉ (provision_host env vm install targets).1 ∧
    PEvent.postPlay ∉ (provision_host env vm install targets).1 := by
  have husable : usableIp (lookupValue outs "vm_ip") = false := by
    rcases hip with h | h <;> simp [usableIp, h]
  have hprox : proxmoxPhase env vm install targets =
      ⟨[.renderTf, .tfApplyCall], some none, install,
       some (.runtimeError "DHCP IP not found in Terraform output. vm_ip was missing or pending.")⟩ := by
    simp [proxmoxPhase, hhv, hrtf, hinfra, htf, hdhcp, husable]
  have hmain : provision_host env vm install targets =
      ([.cleanDir, .renderTf, .tfApplyCall],
       .ok (install, vm.name,
         some (.runtimeError "DHCP IP not found in Terraform output. vm_ip was missing or pending."))) := by
    simp [provision_host, hclean, tryBody, hprox]
  refine ⟨hmain, ?_, ?_, ?_, ?_, ?_, ?_⟩ <;> simp [hmain]

/-- DHCP network config for the C3 witness. -/
def netDhcp : NetworkConfig := { hostname := "h2", dhcp := true }

/-- Ubuntu install config with DHCP addressing. -/
def installUbuntuDhcp : OSInstallConfig :=
  { os := .ubuntu, version := "24.04", users := [{ username := "dev", ssh_authorized_keys := ["k1"] }],
    network := netDhcp }

/-- Terraform oracle whose apply succeeds but whose vm_ip output still
holds the dhcp-pending placeholder. -/
def tfEnvPending : TfEnv :=
  { initOk := true, validateOk := true, planOk := fun _ => true,
    applyOk := fun _ => true, destroyOk := fun _ => true,
    outputOk := true, outputs := [("vm_ip", some "dhcp-pending")] }

/-- Pipeline oracle built on tfEnvPending. -/
def provEnvPending : ProvEnv :=
  { tfEnv := tfEnvPending, healthEnv := healthEnvDown, cleanDirOk := true,
    renderTfOk := true, pxePlayOk := true, ubuntuPlayOk := true,
    nixosAnywhereOk := true, nixosFallbackOk := true, postPlayOk := true,
    tenantPubKey := "tenant-key" }

theorem C3_dhcp_fail_closed_witness :
    (vmProx.hypervisor = .proxmox ∧ provEnvPending.cleanDirOk = true ∧
     provEnvPending.renderTfOk = true ∧ allStages.infra = true ∧
     installUbuntuDhcp.network.dhcp = true ∧
     (terraform_apply provEnvPending.tfEnv 2).2 = .ok [("vm_ip", some "dhcp-pending")] ∧
     (lookupValue [("vm_ip", some "dhcp-pending")] "vm_ip" = none ∨
      lookupValue [("vm_ip", some "dhcp-pending")] "vm_ip" = some "dhcp-pending")) ∧
    (provision_host provEnvPending vmProx installUbuntuDhcp allStages =
      ([.cleanDir, .renderTf, .tfApplyCall],
       .ok (installUbuntuDhcp, vmProx.name,
         some (.runtimeError "DHCP IP not found in Terraform output. vm_ip was missing or pending."))) ∧
     (∀ b, PEvent.healthCheck b ∉ (provision_host provEnvPending vmProx installUbuntuDhcp allStages).1) ∧
     PEvent.pxePlay ∉ (provision_host provEnvPending vmProx installUbuntuDhcp allStages).1 ∧
     PEvent.ubuntuPlay ∉ (provision_host provEnvPending vmProx installUbuntuDhcp allStages).1 ∧
     (∀ b, PEvent.nixosAnywhere b ∉ (provision_host provEnvPending vmProx installUbuntuDhcp allStages).1) ∧
     PEvent.nixosFallback ∉ (provision_host provEnvPending vmProx installUbuntuDhcp allStages).1 ∧
     PEvent.postPlay ∉ (provision_host provEnvPending vmProx installUbuntuDhcp allStages).1) :=
  ⟨⟨rfl, rfl, rfl, rfl, rfl, rfl, Or.inr rfl⟩,
   C3_dhcp_fail_closed provEnvPending vmProx installUbuntuDhcp allStages
     [("vm_ip", some "dhcp-pending")] rfl rfl rfl rfl rfl rfl (Or.inr rfl)⟩

/-- Claim C10: a bare-metal NixOS host with the os stage selected always
ends in a failed host result; the nixos-anywhere primary and the Ansible
fallback never run, and whenever the earlier stages do not fail first the
failure is the UnboundLocalError on vm_ip_for_tasks, which is only
assigned in the virtualized branch. -/
theorem C10_baremetal_nixos_always_fails (env : ProvEnv) (vm : VMSpec)
    (install : OSInstallConfig) (targets : StageSet)
    (hclean : env.cleanDirOk = true) (hhv : vm.hypervisor = .baremetal)
    (hos : install.os = .nixos) (hosT : targets.os = true) :
    (∃ inst' e, (provision_host env vm install targets).2 = .ok (inst', vm.name, some e)) ∧
    (∀ b, PEvent.nixosAnywhere b ∉ (provision_host env vm install targets).1) ∧
    PEvent.nixosFallback ∉ (provision_host env vm install targets).1 ∧
    ((targets.pxe = true → env.pxePlayOk = true) →
      (provision_host env vm install targets).2 =
        .ok (render_ansible_inventory env.tenantPubKey install, vm.name,
          some (.unboundLocalError "vm_ip_for_tasks"))) := by
  have hprox : proxmoxPhase env vm install targets = ⟨[], none, install, none⟩ := by
    simp [proxmoxPhase, hhv]
  have hos2 : (render_ansible_inventory env.tenantPubKey install).os = .nixos := by
    rw [render_ansible_inventory_os, hos]
  have hosr : osPhase env (render_ansible_inventory env.tenantPubKey install) none targets =
      ([], some (.unboundLocalError "vm_ip_for_tasks")) := by
    simp [osPhase, hosT, hos2]
  by_cases hpxe : targets.pxe = true
  · by_cases hpo : env.pxePlayOk = true
    · have hpxr : pxePhase env vm targets = ([.pxePlay], none) := by
        simp [pxePhase, hhv, hpxe, hpo]
      have hmain : provision_host env vm install targets =
          ([.cleanDir, .renderInventory, .pxePlay],
           .ok (render_ansible_inventory env.tenantPubKey install, vm.name,
             some (.unboundLocalError "vm_ip_for_tasks"))) := by
        simp [provision_host, hclean, tryBody, hprox, hpxr, hosr]
      exact ⟨⟨render_ansible_inventory env.tenantPubKey install,
        .unboundLocalError "vm_ip_for_tasks", by simp [hmain]⟩,
        by simp [hmain], by simp [hmain], fun _ => by simp [hmain]⟩
    · replace hpo : env.pxePlayOk = false := by simpa using hpo
      have hpxr : pxePhase env vm targets =
          ([.pxePlay], some (.shellError "ansible-playbook pxe_server.yml failed")) := by
        simp [pxePhase, hhv, hpxe, hpo]
      have hmain : provision_host env vm install targets =
          ([.cleanDir, .renderInventory, .pxePlay],
           .ok (render_ansible_inventory env.tenantPubKey install, vm.name,
             some (.shellError "ansible-playbook pxe_server.yml failed"))) := by
        simp [provision_host, hclean, tryBody, hprox, hpxr]
      refine ⟨⟨render_ansible_inventory env.tenantPubKey install,
        .shellError "ansible-playbook pxe_server.yml failed", by simp [hmain]⟩,
        by simp [hmain], by simp [hmain], fun hc => ?_⟩
      exact absurd (hc hpxe) (by simp [hpo])
  · have hpxr : pxePhase env vm targets = ([], none) := by
      simp [pxePhase, hhv, hpxe]
    have hmain : provision_host env vm install targets =
        ([.cleanDir, .renderInventory],
         .ok (render_ansible_inventory env.tenantPubKey install, vm.name,
           some (.unboundLocalError "vm_ip_for_tasks"))) := by
      simp [provision_host, hclean, tryBody, hprox, hpxr, hosr]
    exact ⟨⟨render_ansible_inventory env.tenantPubKey install,
      .unboundLocalError "vm_ip_for_tasks", by simp [hmain]⟩,
      by simp [hmain], by simp [hmain], fun _ => by simp [hmain]⟩

/-- A bare-metal PXE-booted host. -/
def vmMetal : VMSpec := { name := "m1", hypervisor := .baremetal, boot_method := .pxe }

/-- A NixOS install config. -/
def installNixos : OSInstallConfig :=
  { os := .nixos, version := "24.05", users := [{ username := "ops", ssh_authorized_keys := ["k2"] }],
    network := { hostname := "m1" } }

theorem C10_baremetal_nixos_always_fails_witness :
    (provEnvHealthDown.cleanDirOk = true ∧ vmMetal.hypervisor = .baremetal ∧
     installNixos.os = .nixos ∧ allStages.os = true) ∧
    ((∃ inst' e, (provision_host provEnvHealthDown vmMetal installNixos allStages).2 =
        .ok (inst', vmMetal.name, some e)) ∧
     (∀ b, PEvent.nixosAnywhere b ∉
        (provision_host provEnvHealthDown vmMetal installNixos allStages).1) ∧
     PEvent.nixosFallback ∉ (provision_host provEnvHealthDown vmMetal installNixos allStages).1 ∧
     ((allStages.pxe = true → provEnvHealthDown.pxePlayOk = true) →
       (provision_host provEnvHealthDown vmMetal installNixos allStages).2 =
         .ok (render_ansible_inventory provEnvHealthDown.tenantPubKey installNixos, vmMetal.name,
           some (.unboundLocalError "vm_ip_for_tasks")))) :=
  ⟨⟨rfl, rfl, rfl, rfl⟩,
   C10_baremetal_nixos_always_fails provEnvHealthDown vmMetal installNixos allStages
     rfl rfl rfl rfl⟩


-- ------------------------------------------------------------------
-- Claim C4: the NixOS primary/fallback policy of the os stage.
-- ------------------------------------------------------------------

/-- The infra stage completes without a captured error: terraform_apply
succeeds and, for DHCP hosts, the vm_ip output is usable. -/
def infraOk (env : ProvEnv) (install : OSInstallConfig) : Bool :=
  match (terraform_apply env.tfEnv 2).2 with
  | .error _ => false
  | .ok outs => !install.network.dhcp || usableIp (lookupValue outs "vm_ip")

lemma mem_healthPart (env : ProvEnv) (ost : OSType) (ip : String) (e : PEvent)
    (he : e ∈ healthPart env ost ip) : e = .bootWait ∨ ∃ b, e = .healthCheck b := by
  unfold healthPart at he
  split at he
  · simp at he
    rcases he with rfl | rfl
    · exact Or.inl rfl
    · exact Or.inr ⟨_, rfl⟩
  · simp at he

/-- When the hypervisor is proxmox, rendering succeeds and the infra
stage (when selected) completes, the proxmox branch returns without a
captured error, binds vm_ip_for_tasks, emits only infra events, and
preserves the os field of the install config. -/
lemma proxmoxPhase_ok (env : ProvEnv) (vm : VMSpec) (install : OSInstallConfig)
    (targets : StageSet)
    (hhv : vm.hypervisor = .proxmox) (hrtf : env.renderTfOk = true)
    (hinfra : targets.infra = true → infraOk env install = true) :
    ∃ tr ipv inst1,
      proxmoxPhase env vm install targets = ⟨tr, some ipv, inst1, none⟩ ∧
      (∀ e ∈ tr, e = .renderTf ∨ e = .tfApplyCall ∨ e = .bootWait ∨ ∃ b, e = .healthCheck b) ∧
      inst1.os = install.os := by
  by_cases hti : targets.infra = true
  · have hio := hinfra hti
    unfold infraOk at hio
    cases htf : (terraform_apply env.tfEnv 2).2 with
    | error e => rw [htf] at hio; simp at hio
    | ok outs =>
      rw [htf] at hio
      by_cases hd : install.network.dhcp = true
      · have husable : usableIp (lookupValue outs "vm_ip") = true := by
          rw [hd] at hio; simpa using hio
        refine ⟨[.renderTf, .tfApplyCall] ++
            healthPart env install.os ((lookupValue outs "vm_ip").getD ""),
          some ((lookupValue outs "vm_ip").getD ""),
          { install with network := { install.network with
              address_cidr := some ((lookupValue outs "vm_ip").getD "") } },
          ?_, ?_, rfl⟩
        · simp [proxmoxPhase, hhv, hrtf, hti, htf, hd, husable]
        · intro e he
          simp at he
          rcases he with rfl | rfl | he
          · exact Or.inl rfl
          · exact Or.inr (Or.inl rfl)
          · rcases mem_healthPart env install.os _ e he with h | h
            · exact Or.inr (Or.inr (Or.inl h))
            · exact Or.inr (Or.inr (Or.inr h))
      · replace hd : install.network.dhcp = false := by simpa using hd
        refine ⟨[.renderTf, .tfApplyCall] ++
            healthPart env install.os (splitCidr ((install.network.address_cidr).getD "")),
          some (splitCidr ((install.network.address_cidr).getD "")), install,
          ?_, ?_, rfl⟩
        · simp [proxmoxPhase, hhv, hrtf, hti, htf, hd]
        · intro e he
          simp at he
          rcases he with rfl | rfl | he
          · exact Or.inl rfl
          · exact Or.inr (Or.inl rfl)
          · rcases mem_healthPart env install.os _ e he with h | h
            · exact Or.inr (Or.inr (Or.inl h))
            · exact Or.inr (Or.inr (Or.inr h))
  · refine ⟨[.renderTf], none, install, ?_, ?_, rfl⟩
    · simp [proxmoxPhase, hhv, hrtf, hti]
    · intro e he
      simp at he
      subst he
      exact Or.inl rfl

lemma pxePhase_ok (env : ProvEnv) (vm : VMSpec) (targets : StageSet)
    (hpxe : targets.pxe = true → env.pxePlayOk = true) :
    ∃ trp, pxePhase env vm targets = (trp, none) ∧
      PEvent.nixosFallback ∉ trp ∧ (∀ b, PEvent.nixosAnywhere b ∉ trp) := by
  by_cases hg : (vm.hypervisor = .baremetal ∨ vm.boot_method = .pxe)
  · by_cases ht : targets.pxe = true
    · exact ⟨[.pxePlay], by simp [pxePhase, hg, ht, hpxe ht], by simp, by simp⟩
    · exact ⟨[], by simp [pxePhase, hg, ht], by simp, by simp⟩
  · exact ⟨[], by simp [pxePhase, hg], by simp, by simp⟩

lemma postPhase_ok (env : ProvEnv) (targets : StageSet)
    (hpost : targets.post = true → env.postPlayOk = true) :
    ∃ trq, postPhase env targets = (trq, none) ∧
      PEvent.nixosFallback ∉ trq ∧ (∀ b, PEvent.nixosAnywhere b ∉ trq) := by
  by_cases ht : targets.post = true
  · exact ⟨[.postPlay], by simp [postPhase, ht, hpost ht], by simp, by simp⟩
  · exact ⟨[], by simp [postPhase, ht], by simp, by simp⟩

/-- Claim C4: for a virtualized NixOS host whose selected stages include
os and whose earlier stages complete, the nixos-anywhere primary attempt
always runs; the Ansible fallback runs exactly when the primary fails;
and the host result carries an os-stage failure exactly when the fallback
itself fails, so a primary failure followed by a successful fallback
leaves the host successful. -/
theorem C4_nixos_primary_fallback (env : ProvEnv) (vm : VMSpec)
    (install : OSInstallConfig) (targets : StageSet)
    (hhv : vm.hypervisor = .proxmox) (hclean : env.cleanDirOk = true)
    (hrtf : env.renderTfOk = true)
    (hinfra : targets.infra = true → infraOk env install = true)
    (hos : install.os = .nixos) (hosT : targets.os = true)
    (hpxe : targets.pxe = true → env.pxePlayOk = true)
    (hpost : targets.post = true → env.postPlayOk = true) :
    PEvent.nixosAnywhere env.nixosAnywhereOk ∈ (provision_host env vm install targets).1 ∧
    (PEvent.nixosFallback ∈ (provision_host env vm install targets).1 ↔
      env.nixosAnywhereOk = false) ∧
    (∃ inst', (provision_host env vm install targets).2 =
      .ok (inst', vm.name,
        if env.nixosAnywhereOk = false ∧ env.nixosFallbackOk = false then
          some (.shellError "ansible-playbook nixos_install.yml failed")
        else none)) := by
  obtain ⟨tr, ipv, inst1, hprox, hmem, hio⟩ := proxmoxPhase_ok env vm install targets hhv hrtf hinfra
  obtain ⟨trp, hpx, hpxf, hpxa⟩ := pxePhase_ok env vm targets hpxe
  obtain ⟨trq, hpo, hpof, hpoa⟩ := postPhase_ok env targets hpost
  have htrf : PEvent.nixosFallback ∉ tr := by
    intro h
    rcases hmem _ h with h1 | h1 | h1 | ⟨b, h1⟩ <;> simp at h1
  have htra : ∀ b, PEvent.nixosAnywhere b ∉ tr := by
    intro b h
    rcases hmem _ h with h1 | h1 | h1 | ⟨c, h1⟩ <;> simp at h1
  have hos2 : (render_ansible_inventory env.tenantPubKey inst1).os = .nixos := by
    rw [render_ansible_inventory_os, hio, hos]
  by_cases ha : env.nixosAnywhereOk = true
  · have hosr : osPhase env (render_ansible_inventory env.tenantPubKey inst1)
        (some ipv) targets = ([.nixosAnywhere true], none) := by
      simp [osPhase, hosT, hos2, ha]
    have hmain : provision_host env vm install targets =
        (PEvent.cleanDir :: (tr ++ [.renderInventory] ++ trp ++ [.nixosAnywhere true] ++ trq),
         .ok (render_ansible_inventory env.tenantPubKey inst1, vm.name, none)) := by
      simp [provision_host, hclean, tryBody, hprox, hpx, hosr, hpo]
    refine ⟨by simp [hmain, ha], ?_, ?_⟩
    · rw [hmain, ha]
      simp [htrf, hpxf, hpof]
    · exact ⟨render_ansible_inventory env.tenantPubKey inst1, by simp [hmain, ha]⟩
  · replace ha : env.nixosAnywhereOk = false := by simpa using ha
    by_cases hf : env.nixosFallbackOk = true
    · have hosr : osPhase env (render_ansible_inventory env.tenantPubKey inst1)
          (some ipv) targets = ([.nixosAnywhere false, .nixosFallback], none) := by
        simp [osPhase, hosT, hos2, ha, hf]
      have hmain : provision_host env vm install targets =
          (PEvent.cleanDir ::
            (tr ++ [.renderInventory] ++ trp ++ [.nixosAnywhere false, .nixosFallback] ++ trq),
           .ok (render_ansible_inventory env.tenantPubKey inst1, vm.name, none)) := by
        simp [provision_host, hclean, tryBody, hprox, hpx, hosr, hpo]
      refine ⟨by simp [hmain, ha], ?_, ?_⟩
      · rw [hmain, ha]
        simp
      · exact ⟨render_ansible_inventory env.tenantPubKey inst1, by simp [hmain, ha, hf]⟩
    · replace hf : env.nixosFallbackOk = false := by simpa using hf
      have hosr : osPhase env (render_ansible_inventory env.tenantPubKey inst1)
          (some ipv) targets = ([.nixosAnywhere false, .nixosFallback],
            some (.shellError "ansible-playbook nixos_install.yml failed")) := by
        simp [osPhase, hosT, hos2, ha, hf]
      have hmain : provision_host env vm install targets =
          (PEvent.cleanDir ::
            (tr ++ [.renderInventory] ++ trp ++ [.nixosAnywhere false, .nixosFallback]),
           .ok (render_ansible_inventory env.tenantPubKey inst1, vm.name,
             some (.shellError "ansible-playbook nixos_install.yml failed"))) := by
        simp [provision_host, hclean, tryBody, hprox, hpx, hosr]
      refine ⟨by simp [hmain, ha], ?_, ?_⟩
      · rw [hmain, ha]
        simp
      · exact ⟨render_ansible_inventory env.tenantPubKey inst1, by simp [hmain, ha, hf]⟩

/-- Stage selection with no stage chosen. -/
def noStages : StageSet := { infra := false, pxe := false, os := false, post := false }

/-- Stage selection running just the os stage. -/
def osStage : StageSet := { infra := false, pxe := false, os := true, post := false }

/-- Pipeline oracle where the nixos-anywhere primary fails and the
Ansible fallback succeeds. -/
def provEnvFallback : ProvEnv :=
  { tfEnv := tfEnvOk, healthEnv := healthEnvDown, cleanDirOk := true,
    renderTfOk := true, pxePlayOk := true, ubuntuPlayOk := true,
    nixosAnywhereOk := false, nixosFallbackOk := true, postPlayOk := true,
    tenantPubKey := "tenant-key" }

/-- A proxmox NixOS host for the C4 witness. -/
def vmProxNixos : VMSpec := { name := "n1" }

theorem C4_nixos_primary_fallback_witness :
    (vmProxNixos.hypervisor = .proxmox ∧ provEnvFallback.cleanDirOk = true ∧
     provEnvFallback.renderTfOk = true ∧
     (osStage.infra = true → infraOk provEnvFallback installNixos = true) ∧
     installNixos.os = .nixos ∧ osStage.os = true ∧
     (osStage.pxe = true → provEnvFallback.pxePlayOk = true) ∧
     (osStage.post = true → provEnvFallback.postPlayOk = true)) ∧
    (PEvent.nixosAnywhere provEnvFallback.nixosAnywhereOk ∈
       (provision_host provEnvFallback vmProxNixos installNixos osStage).1 ∧
     (PEvent.nixosFallback ∈ (provision_host provEnvFallback vmProxNixos installNixos osStage).1 ↔
       provEnvFallback.nixosAnywhereOk = false) ∧
     (∃ inst', (provision_host provEnvFallback vmProxNixos installNixos osStage).2 =
       .ok (inst', vmProxNixos.name,
         if provEnvFallback.nixosAnywhereOk = false ∧ provEnvFallback.nixosFallbackOk = false then
           some (.shellError "ansible-playbook nixos_install.yml failed")
         else none))) :=
  ⟨⟨rfl, rfl, rfl, by decide, rfl, rfl, by decide, by decide⟩,
   C4_nixos_primary_fallback provEnvFallback vmProxNixos installNixos osStage
     rfl rfl rfl (by decide) rfl rfl (by decide) (by decide)⟩


-- ------------------------------------------------------------------
-- Claim C7: failure isolation and run-level exit status.
-- ------------------------------------------------------------------

/-- Pipeline oracle whose workspace reset (ensure_clean_dir) raises. -/
def provEnvCleanFail : ProvEnv :=
  { tfEnv := tfEnvOk, healthEnv := healthEnvDown, cleanDirOk := false,
    renderTfOk := true, pxePlayOk := true, ubuntuPlayOk := true,
    nixosAnywhereOk := true, nixosFallbackOk := true, postPlayOk := true,
    tenantPubKey := "tenant-key" }

/-- First host of the C7 counterexample run. -/
def vmA7 : VMSpec := { name := "a1", hypervisor := .baremetal }

/-- Second host of the C7 counterexample run. -/
def vmB7 : VMSpec := { name := "b1", hypervisor := .baremetal }

/-- Install config shared by the C7 counterexample hosts. -/
def install7 : OSInstallConfig :=
  { os := .ubuntu, version := "24.04",
    users := [{ username := "dev", ssh_authorized_keys := ["k"] }],
    network := { hostname := "x" } }

/-- Install-config map of the C7 counterexample run. -/
def installs7 : List (String × OSInstallConfig) := [("a1", install7), ("b1", install7)]

/-- Counterexample to claim C7 as stated: an exception raised inside host
a1 pipeline (the workspace reset raises, before the try block starts) is
not captured as an a1 HostResult; it unwinds through asyncio.gather and
aborts the whole run without any summary, even though host b1 on its own
would have completed successfully. -/
theorem C7_counterexample :
    mainRun [(provEnvCleanFail, vmA7), (provEnvHealthDown, vmB7)] installs7 noStages =
      .error (.osError "ensure_clean_dir failed") ∧
    workerRun provEnvHealthDown vmB7 installs7 noStages = .ok ("b1", none) := by
  exact ⟨rfl, rfl⟩

lemma workerRun_ok (env : ProvEnv) (vm : VMSpec)
    (installs : List (String × OSInstallConfig)) (targets : StageSet)
    (hclean : env.cleanDirOk = true) :
    ∃ r, workerRun env vm installs targets = .ok r := by
  unfold workerRun
  cases h : installs.lookup vm.name with
  | none => exact ⟨_, rfl⟩
  | some install =>
    have hp : (provision_host env vm install targets).2 =
        .ok ((tryBody env vm install targets).2.1, vm.name,
          (tryBody env vm install targets).2.2) := by
      simp [provision_host, hclean]
    exact ⟨(vm.name, (tryBody env vm install targets).2.2), by simp [hp]⟩

/-- Claim C7 amended: as long as no exception is raised before the try
block of provision_host (lock acquisition and workspace reset succeed for
every host), every per-host exception is captured as that host result,
the run completes with a summary, and the process exit status is non-zero
exactly when at least one host result is a failure.  An exception in the
workspace reset itself instead aborts the whole run, as the
counterexample shows. -/
theorem C7_failure_isolation_amended (hosts : List (ProvEnv × VMSpec))
    (installs : List (String × OSInstallConfig)) (targets : StageSet)
    (hclean : ∀ p ∈ hosts, p.1.cleanDirOk = true) :
    ∃ rs, mainRun hosts installs targets = .ok (rs, exitCode rs) ∧
      (exitCode rs ≠ 0 ↔ ∃ r ∈ rs, r.2.isSome = true) := by
  have hg : ∀ hs : List (ProvEnv × VMSpec), (∀ p ∈ hs, p.1.cleanDirOk = true) →
      ∃ rs, gatherRun hs installs targets = .ok rs := by
    intro hs
    induction hs with
    | nil => exact fun _ => ⟨[], rfl⟩
    | cons p rest ih =>
      intro hcl
      obtain ⟨e, v⟩ := p
      obtain ⟨r, hr⟩ := workerRun_ok e v installs targets (hcl ⟨e, v⟩ (by simp))
      obtain ⟨rs, hrs⟩ := ih (fun q hq => hcl q (List.mem_cons_of_mem _ hq))
      exact ⟨r :: rs, by simp [gatherRun, hr, hrs]⟩
  obtain ⟨rs, hrs⟩ := hg hosts hclean
  refine ⟨rs, by simp [mainRun, hrs], ?_⟩
  unfold exitCode
  by_cases hany : rs.any (fun r => r.2.isSome) = true
  · simp only [hany, if_true]
    simpa using List.any_eq_true.mp hany
  · simp only [Bool.not_eq_true] at hany
    simp only [hany, Bool.false_eq_true, if_false]
    constructor
    · intro h; exact absurd rfl h
    · intro h
      obtain ⟨r, hmem, hsome⟩ := h
      have hcontra : rs.any (fun r => r.2.isSome) = true :=
        List.any_eq_true.mpr ⟨r, hmem, hsome⟩
      rw [hany] at hcontra
      simp at hcontra

theorem C7_failure_isolation_amended_witness :
    (∀ p ∈ [(provEnvHealthDown, vmB7), (provEnvCleanFail, vmA7)].take 1,
      p.1.cleanDirOk = true) ∧
    (∃ rs, mainRun ([(provEnvHealthDown, vmB7), (provEnvCleanFail, vmA7)].take 1)
        installs7 noStages = .ok (rs, exitCode rs) ∧
      (exitCode rs ≠ 0 ↔ ∃ r ∈ rs, r.2.isSome = true)) :=
  ⟨by decide,
   C7_failure_isolation_amended ([(provEnvHealthDown, vmB7), (provEnvCleanFail, vmA7)].take 1)
     installs7 noStages (by decide)⟩


-- ------------------------------------------------------------------
-- Claim C8: the caller-owned install config is mutated.
-- ------------------------------------------------------------------

/-- Install config whose single user has no authorized keys. -/
def installNoKeys : OSInstallConfig :=
  { os := .ubuntu, version := "24.04", users := [{ username := "dev" }],
    network := { hostname := "h8" } }

/-- Bare-metal host of the C8 counterexample. -/
def vm8 : VMSpec := { name := "h8", hypervisor := .baremetal }

/-- The state of the caller-owned install config after the engine ran on
installNoKeys: the tenant public key was appended to the user. -/
def install8After : OSInstallConfig :=
  { installNoKeys with
      users := [{ username := "dev", ssh_authorized_keys := ["tenant-key"] }] }

/-- Counterexample to claim C8 as stated: provision_host returns with the
caller-owned OSInstallConfig changed (the tenant public key was appended
to the user with empty ssh_authorized_keys by render_ansible_inventory),
so the install config is not read-only to the engine. -/
theorem C8_counterexample :
    (provision_host provEnvHealthDown vm8 installNoKeys noStages).2 =
      .ok (install8After, "h8", none) ∧
    install8After ≠ installNoKeys := by
  exact ⟨rfl, by decide⟩

lemma proxmoxPhase_install_fields (env : ProvEnv) (vm : VMSpec)
    (install : OSInstallConfig) (targets : StageSet) :
    ((proxmoxPhase env vm install targets).install.os = install.os ∧
     (proxmoxPhase env vm install targets).install.version = install.version ∧
     (proxmoxPhase env vm install targets).install.packages = install.packages ∧
     (proxmoxPhase env vm install targets).install.docker = install.docker ∧
     (proxmoxPhase env vm install targets).install.nix_services = install.nix_services ∧
     (proxmoxPhase env vm install targets).install.users = install.users) ∧
    ((proxmoxPhase env vm install targets).install.network.hostname = install.network.hostname ∧
     (proxmoxPhase env vm install targets).install.network.domain = install.network.domain ∧
     (proxmoxPhase env vm install targets).install.network.dhcp = install.network.dhcp ∧
     (proxmoxPhase env vm install targets).install.network.gateway = install.network.gateway ∧
     (proxmoxPhase env vm install targets).install.network.dns = install.network.dns) := by
  by_cases h1 : vm.hypervisor = .proxmox
  · by_cases h2 : env.renderTfOk = true
    · by_cases h3 : targets.infra = true
      · cases htf : (terraform_apply env.tfEnv 2).2 with
        | error e => simp [proxmoxPhase, h1, h2, h3, htf]
        | ok outs =>
          by_cases h4 : install.network.dhcp = true
          · by_cases h5 : usableIp (lookupValue outs "vm_ip") = true
            · simp [proxmoxPhase, h1, h2, h3, htf, h4, h5]
            · simp [proxmoxPhase, h1, h2, h3, htf, h4, h5]
          · simp [proxmoxPhase, h1, h2, h3, htf, h4]
      · simp [proxmoxPhase, h1, h2, h3]
    · simp [proxmoxPhase, h1, h2]
  · simp [proxmoxPhase, h1]

lemma render_ansible_inventory_usernames (k : String) (i : OSInstallConfig) :
    (render_ansible_inventory k i).users.map (fun u => u.username) =
        i.users.map (fun u => u.username) ∨
    (i.users = [] ∧
      (render_ansible_inventory k i).users.map (fun u => u.username) = ["ubuntu"]) := by
  unfold render_ansible_inventory
  cases h : i.users with
  | nil => exact Or.inr ⟨rfl, by simp⟩
  | cons a l =>
    refine Or.inl ?_
    simp only [List.map_map]
    refine List.map_congr_left ?_
    intro u _
    by_cases hu : u.ssh_authorized_keys.isEmpty <;> simp [Function.comp, hu]

lemma tryBody_install_shape (env : ProvEnv) (vm : VMSpec)
    (install : OSInstallConfig) (targets : StageSet) :
    (tryBody env vm install targets).2.1 = (proxmoxPhase env vm install targets).install ∨
    (tryBody env vm install targets).2.1 =
      render_ansible_inventory env.tenantPubKey (proxmoxPhase env vm install targets).install := by
  rcases hres : proxmoxPhase env vm install targets with ⟨tr1, ipv, inst1, err⟩
  cases err with
  | some e => exact Or.inl (by simp [tryBody, hres])
  | none =>
    right
    rcases hpx : pxePhase env vm targets with ⟨trp, perr⟩
    cases perr with
    | some e => simp [tryBody, hres, hpx]
    | none =>
      rcases hosr : osPhase env (render_ansible_inventory env.tenantPubKey inst1) ipv targets
        with ⟨tro, oerr⟩
      cases oerr with
      | some e => simp [tryBody, hres, hpx, hosr]
      | none =>
        rcases hpo : postPhase env targets with ⟨trq, qerr⟩
        simp [tryBody, hres, hpx, hosr, hpo]

/-- Claim C8 amended: the VMSpec is read-only, but the caller-owned
OSInstallConfig is mutated in exactly two documented ways: the detected
DHCP address overwrites network.address_cidr, and inventory rendering
rewrites the users list (appending the tenant key to users without keys,
or substituting a default ubuntu user when the list is empty).  Every
other field of the install config, including all remaining network fields
and the usernames, is preserved whenever provision_host returns. -/
theorem C8_install_mutation_frame (env : ProvEnv) (vm : VMSpec)
    (install : OSInstallConfig) (targets : StageSet)
    (inst' : OSInstallConfig) (nm : String) (err : Option PErr)
    (h : (provision_host env vm install targets).2 = .ok (inst', nm, err)) :
    inst'.os = install.os ∧ inst'.version = install.version ∧
    inst'.packages = install.packages ∧ inst'.docker = install.docker ∧
    inst'.nix_services = install.nix_services ∧
    inst'.network.hostname = install.network.hostname ∧
    inst'.network.domain = install.network.domain ∧
    inst'.network.dhcp = install.network.dhcp ∧
    inst'.network.gateway = install.network.gateway ∧
    inst'.network.dns = install.network.dns ∧
    (inst'.users.map (fun u => u.username) = install.users.map (fun u => u.username) ∨
      (install.users = [] ∧ inst'.users.map (fun u => u.username) = ["ubuntu"])) := by
  by_cases hclean : env.cleanDirOk = true
  · have hp : (provision_host env vm install targets).2 =
        .ok ((tryBody env vm install targets).2.1, vm.name,
          (tryBody env vm install targets).2.2) := by
      simp [provision_host, hclean]
    rw [hp] at h
    simp only [Except.ok.injEq, Prod.mk.injEq] at h
    obtain ⟨hA, _, _⟩ := h
    obtain ⟨⟨f1, f2, f3, f4, f5, f6⟩, ⟨n1, n2, n3, n4, n5⟩⟩ :=
      proxmoxPhase_install_fields env vm install targets
    rcases tryBody_install_shape env vm install targets with hs | hs
    · rw [hs] at hA
      subst hA
      exact ⟨f1, f2, f3, f4, f5, n1, n2, n3, n4, n5, Or.inl (by rw [f6])⟩
    · rw [hs] at hA
      subst hA
      obtain ⟨r1, r2, r3, r4, r5, r6⟩ :=
        render_ansible_inventory_fields env.tenantPubKey
          (proxmoxPhase env vm install targets).install
      refine ⟨by rw [r1, f1], by rw [r2, f2], by rw [r3, f3], by rw [r5, f4],
        by rw [r6, f5], by rw [r4, n1], by rw [r4, n2], by rw [r4, n3],
        by rw [r4, n4], by rw [r4, n5], ?_⟩
      rcases render_ansible_inventory_usernames env.tenantPubKey
          (proxmoxPhase env vm install targets).install with hu | ⟨hnil, hu⟩
      · exact Or.inl (by rw [hu, f6])
      · exact Or.inr ⟨by rw [← f6, hnil], hu⟩
  · exfalso
    have : (provision_host env vm install targets).2 =
        .error (.osError "ensure_clean_dir failed") := by
      simp [provision_host, hclean]
    rw [this] at h
    cases h

theorem C8_install_mutation_frame_witness :
    ((provision_host provEnvHealthDown vm8 installNoKeys noStages).2 =
      .ok (install8After, "h8", none)) ∧
    (install8After.os = installNoKeys.os ∧
     install8After.version = installNoKeys.version ∧
     install8After.packages = installNoKeys.packages ∧
     install8After.docker = installNoKeys.docker ∧
     install8After.nix_services = installNoKeys.nix_services ∧
     install8After.network.hostname = installNoKeys.network.hostname ∧
     install8After.network.domain = installNoKeys.network.domain ∧
     install8After.network.dhcp = installNoKeys.network.dhcp ∧
     install8After.network.gateway = installNoKeys.network.gateway ∧
     install8After.network.dns = installNoKeys.network.dns ∧
     (install8After.users.map (fun u => u.username) =
        installNoKeys.users.map (fun u => u.username) ∨
      (installNoKeys.users = [] ∧
        install8After.users.map (fun u => u.username) = ["ubuntu"]))) :=
  ⟨rfl, C8_install_mutation_frame provEnvHealthDown vm8 installNoKeys noStages
     install8After "h8" none rfl⟩

end MS
